import Mathlib

/-!
# Verification of the Flutter setup script

A shallow embedding of `src/flutter/setup_flutter.py`. The script is a
linear pipeline: detect the host OS, fetch release metadata, probe the
locally installed version, and — unless the local version already equals
the latest stable one — download the archive, replace the previous
installation directory, extract, clean up the archive, and print PATH
guidance.

The embedding makes every external interaction an input: the `Env`
structure records what the outside world would answer (metadata fetch
result, probe outcome, download success, state of the old installation
directory, ...), and `install_flutter` maps an `Env` to the ordered list
of observable events (console messages, network requests, filesystem
mutations) the Python function would produce on that world.
-/

namespace SetupFlutter

/-! ## Static configuration (module-level constants of the script) -/

def BASE_URL : String := "https://storage.googleapis.com/flutter_infra_release/releases"

/-- The `PATHS` dict: installation directory per OS, `none` when the OS is
not a key. `home` stands for the result of `os.path.expanduser("~")`. -/
def PATHS (home osName : String) : Option String :=
  if osName = "Windows" then some "C:\\flutter"
  else if osName = "Darwin" then some (home ++ "/development/flutter")
  else if osName = "Linux" then some (home ++ "/development/flutter")
  else none

/-- The `METADATA_URLS` dict; in the script it is only read for keys of
`PATHS`, which are exactly its own keys. -/
def METADATA_URLS (osName : String) : String :=
  if osName = "Windows" then BASE_URL ++ "/releases_windows.json"
  else if osName = "Darwin" then BASE_URL ++ "/releases_macos.json"
  else BASE_URL ++ "/releases_linux.json"

/-- `os.path.dirname(install_path)` for the two fixed shapes in `PATHS`. -/
def parentDir (home osName : String) : String :=
  if osName = "Windows" then "C:\\" else home ++ "/development"

/-! ## Release metadata (`data` parsed from the JSON document) -/

/-- One entry of the `releases` list, with the three fields the script reads. -/
structure Release where
  hash : String
  version : String
  archive : String
deriving DecidableEq, Repr

/-- The metadata document: `current_release.stable` plus the `releases` list.
A fetch that raised (network error, malformed JSON, missing key) is
represented as `none` before this structure is ever built. -/
structure MetaJson where
  currentStable : String
  releases : List Release
deriving DecidableEq, Repr

/-- Lines 146-158: `next((item for item in data['releases'] if item['hash']
== current_hash), None)`; `none` covers the except-branch (fetch/parse
failure) and the `if not release: raise` branch alike. -/
def resolveRelease : Option MetaJson → Option Release
  | none => none
  | some data => data.releases.find? (fun item => item.hash == data.currentStable)

/-! ## Local version probe (`get_installed_version`) -/

/-- What running `flutter --version` did: the three caught exception classes,
or a successful run with the given stdout. -/
inductive ProbeOutcome where
  | execNotFound
  | nonZeroExit
  | otherError
  | output (stdout : String)
deriving DecidableEq, Repr

/-- Python `\s` on the ASCII range: space, tab, newline, carriage return,
vertical tab, form feed. -/
def isPyWhitespace (c : Char) : Bool :=
  c = ' ' || c = '\t' || c = '\n' || c = '\r' || c = Char.ofNat 11 || c = Char.ofNat 12

/-- Try to match the regex `Flutter\s+(\d+\.\d+\.\d+)` anchored at the head
of `l`, returning the captured group. Greedy matching without backtracking
is faithful here because whitespace, digits and the dot are pairwise
disjoint character classes. -/
def matchVersionAt (l : List Char) : Option String :=
  if ("Flutter".data).isPrefixOf l then
    let rest := l.drop 7
    let sp := rest.takeWhile isPyWhitespace
    if sp.isEmpty then none
    else
      let r1 := rest.drop sp.length
      let d1 := r1.takeWhile Char.isDigit
      if d1.isEmpty then none
      else
        match r1.drop d1.length with
        | '.' :: r2 =>
          let d2 := r2.takeWhile Char.isDigit
          if d2.isEmpty then none
          else
            match r2.drop d2.length with
            | '.' :: r3 =>
              let d3 := r3.takeWhile Char.isDigit
              if d3.isEmpty then none
              else some (String.mk (d1 ++ '.' :: (d2 ++ '.' :: d3)))
            | _ => none
        | _ => none
  else none

/-- `re.search`: try the pattern at each position, left to right. -/
def searchVersion : List Char → Option String
  | [] => none
  | c :: rest =>
    match matchVersionAt (c :: rest) with
    | some v => some v
    | none => searchVersion rest

/-- Lines 91-114: every caught exception yields `None`; a successful
subprocess run yields the captured group of the regex search, or `None`
when the search fails. -/
def get_installed_version : ProbeOutcome → Option String
  | .execNotFound => none
  | .nonZeroExit => none
  | .otherError => none
  | .output s => searchVersion s.data

/-! ## Progress percentages (`draw_progress_bar`, `download_reporthook`,
and the extraction loop) -/

/-- The percentage `draw_progress_bar` computes: `100 * (current / total)`. -/
def drawPercent (current total : ℕ) : ℚ :=
  100 * ((current : ℚ) / (total : ℚ))

/-- Lines 117-124: the percentage one call of `download_reporthook` reports.
`blockNum * blockSize` bytes are downloaded; below the total the raw ratio
is shown, otherwise the report is clamped to `total/total`. -/
def downloadReport (blockNum blockSize totalSize : ℕ) : ℚ :=
  if blockNum * blockSize < totalSize then drawPercent (blockNum * blockSize) totalSize
  else drawPercent totalSize totalSize

/-- The percentages reported over a download during which the hook was
called with block numbers `0, 1, ..., numCalls - 1`. -/
def downloadReports (numCalls blockSize totalSize : ℕ) : List ℚ :=
  (List.range numCalls).map (fun b => downloadReport b blockSize totalSize)

/-- Lines 220-233: the loop indices at which the extraction loop reports
progress: every 100th entry and the last entry. -/
def extractReportIndices (total : ℕ) : List ℕ :=
  (List.range total).filter (fun i => i % 100 == 0 || i == total - 1)

/-- The percentages the extraction loop reports: `draw_progress_bar(i + 1,
total_files)` at each reporting index. -/
def extractReports (total : ℕ) : List ℚ :=
  (extractReportIndices total).map (fun i => drawPercent (i + 1) total)

/-! ## Removal of the old installation (`on_rm_error`, `shutil.rmtree`) -/

/-- One path inside the old installation directory, with the attributes the
deletion logic can observe: is it writable (`os.access(path, os.W_OK)`),
and is it stuck for a reason a chmod does not cure (open handle, lock). -/
structure FileState where
  writable : Bool
  locked : Bool
deriving DecidableEq, Repr

/-- What happened to one path during removal. -/
inductive RemoveStep where
  | direct
  | chmodRetry (ok : Bool)
  | reraised
deriving DecidableEq, Repr

/-- The primitive unlink fails on a read-only path (Windows semantics, the
case the handler is written for) or on a locked one. -/
def deleteFails (f : FileState) : Bool :=
  f.locked || !f.writable

/-- Lines 77-88: the `onerror` handler. A non-writable path gets
`os.chmod(path, stat.S_IWRITE)` and one retry of the failed `func`; the
retry succeeds unless the path is stuck for another reason. A writable
path re-raises the original error. -/
def on_rm_error (f : FileState) : RemoveStep :=
  if !f.writable then RemoveStep.chmodRetry (!f.locked) else RemoveStep.reraised

/-- `shutil.rmtree` on one path: attempt the delete, and on failure invoke
the handler. -/
def removeOne (f : FileState) : RemoveStep :=
  if deleteFails f then on_rm_error f else RemoveStep.direct

/-- `shutil.rmtree(install_path, onerror=on_rm_error)` over the directory
contents: `true` iff every path is removed; a re-raised error or a failed
retry propagates out of `rmtree`. -/
def rmtreeOk : List FileState → Bool
  | [] => true
  | f :: rest =>
    match removeOne f with
    | RemoveStep.direct => rmtreeOk rest
    | RemoveStep.chmodRetry ok => ok && rmtreeOk rest
    | RemoveStep.reraised => false

/-! ## The environment and the event trace -/

/-- Everything the outside world decides during one run. -/
structure Env where
  os : String
  home : String
  fetch : Option MetaJson
  probe : ProbeOutcome
  downloadOk : Bool
  installDirExists : Bool
  oldInstall : List FileState
  parentExists : Bool
  extractOk : Bool
  archiveRemoveOk : Bool
  pathEnv : String
deriving DecidableEq, Repr

/-- The observable events of a run, in program order. Constructors carrying
`fs` in the name mutate the filesystem; `net` constructors touch the
network. -/
inductive Event where
  | header
  | errorUnsupported (osName : String)
  | detected (osName : String)
  | stepChecking
  | netFetchMeta (url : String)
  | successLatest (v : String)
  | errorMeta
  | printLocal (v : String)
  | alreadyLatest
  | warnUpgrade (oldV newV : String)
  | warnFresh
  | stepDownload
  | netDownload (url file : String)
  | downloadFinished
  | errorDownload
  | stepExtract (path : String)
  | warnRemoveOld
  | fsRmtree (path : String)
  | errorRemove
  | fsMakeParent (path : String)
  | fsExtractAll (file dest : String)
  | successExtract
  | errorExtract
  | fsDeleteArchive (file : String) (ok : Bool)
  | stepConfig
  | pathAlready
  | pathWarnWindows (binPath : String)
  | pathDone
  | pathExport (binPath : String)
  | doctorReminder
deriving DecidableEq, Repr

/-- Does the event mutate the filesystem (create, delete or write files)? -/
def Event.isFsMutation : Event → Bool
  | .netDownload _ _ => true
  | .fsRmtree _ => true
  | .fsMakeParent _ => true
  | .fsExtractAll _ _ => true
  | .fsDeleteArchive _ _ => true
  | _ => false

/-- Does the event touch the network? -/
def Event.isNet : Event → Bool
  | .netFetchMeta _ => true
  | .netDownload _ _ => true
  | _ => false

/-- Does the event touch the installation directory (removal, creation of
its parent, or extraction into it)? -/
def Event.touchesInstallDir : Event → Bool
  | .fsRmtree _ => true
  | .fsMakeParent _ => true
  | .fsExtractAll _ _ => true
  | _ => false

/-- Is the event the best-effort deletion of the downloaded archive? -/
def Event.isDeleteArchive : Event → Bool
  | .fsDeleteArchive _ _ => true
  | _ => false

/-- Is the event the extraction of the archive? -/
def Event.isExtraction : Event → Bool
  | .fsExtractAll _ _ => true
  | _ => false

/-! ## The pipeline, phase by phase -/

/-- Line 185: the local archive filename. -/
def filenameFor (osName v : String) : String :=
  "flutter_" ++ v ++ "_archive" ++ (if osName = "Windows" then ".zip" else ".tar.xz")

/-- Line 157: the archive URL. -/
def downloadUrl (archivePath : String) : String :=
  BASE_URL ++ "/" ++ archivePath

/-- Does `needle` occur as a contiguous substring of `hay` (Python `in`)? -/
def containsSub (needle : List Char) : List Char → Bool
  | [] => needle.isEmpty
  | c :: rest => needle.isPrefixOf (c :: rest) || containsSub needle rest

/-- Line 247: `os.path.join(install_path, "bin")`, with the separator of
the OS the script is running on. -/
def binPathOf (osName ipath : String) : String :=
  ipath ++ (if osName = "Windows" then "\\" else "/") ++ "bin"

/-- Lines 246-268: the PATH advisor. On Windows, a case-insensitive
substring check of the bin directory against the process PATH decides
between a success message and a PowerShell command; elsewhere an export
line is always printed. The doctor reminder closes every run. -/
def pathAdvisor (osName ipath pathEnv : String) : List Event :=
  Event.stepConfig ::
    (if osName = "Windows" then
      if containsSub (binPathOf osName ipath).toLower.data pathEnv.toLower.data then
        [Event.pathAlready]
      else [Event.pathWarnWindows (binPathOf osName ipath)]
    else [Event.pathDone, Event.pathExport (binPathOf osName ipath)]) ++
    [Event.doctorReminder]

/-- Lines 210-244: parent-directory creation, the extraction try-block and
its `finally` (best-effort archive deletion), then — only on success —
the PATH advisor. -/
def extractionPhase (env : Env) (ipath filename : String) : List Event :=
  let parent := parentDir env.home env.os
  (if env.parentExists then [] else [Event.fsMakeParent parent]) ++
    if env.extractOk then
      Event.fsExtractAll filename parent :: Event.successExtract ::
        Event.fsDeleteArchive filename env.archiveRemoveOk ::
        pathAdvisor env.os ipath env.pathEnv
    else
      [Event.fsExtractAll filename parent, Event.errorExtract,
        Event.fsDeleteArchive filename env.archiveRemoveOk]

/-- Lines 196-208: the extraction step banner and the removal of an
existing installation directory; a removal failure prints an error and
returns — before the try/finally, so without archive cleanup. -/
def installerPhase (env : Env) (ipath filename : String) : List Event :=
  Event.stepExtract ipath ::
    if env.installDirExists then
      Event.warnRemoveOld :: Event.fsRmtree ipath ::
        (if rmtreeOk env.oldInstall then extractionPhase env ipath filename
        else [Event.errorRemove])
    else extractionPhase env ipath filename

/-- Lines 184-194: the download attempt; failure aborts before the
installer phase. -/
def downloadPhase (env : Env) (ipath : String) (release : Release) : List Event :=
  let filename := filenameFor env.os release.version
  Event.stepDownload :: Event.netDownload (downloadUrl release.archive) filename ::
    if env.downloadOk then Event.downloadFinished :: installerPhase env ipath filename
    else [Event.errorDownload]

/-- Lines 165-182: the decision gate. A probed version equal to the latest
ends the run; otherwise the pipeline continues as upgrade or fresh
install. -/
def afterResolve (env : Env) (ipath : String) (release : Release) : List Event :=
  match get_installed_version env.probe with
  | some iv =>
    Event.printLocal iv ::
      (if iv = release.version then [Event.alreadyLatest]
      else Event.warnUpgrade iv release.version :: downloadPhase env ipath release)
  | none => Event.warnFresh :: downloadPhase env ipath release

/-- Lines 127-268: the whole pipeline. -/
def install_flutter (env : Env) : List Event :=
  match PATHS env.home env.os with
  | none => [Event.header, Event.errorUnsupported env.os]
  | some ipath =>
    Event.header :: Event.detected env.os :: Event.stepChecking ::
      Event.netFetchMeta (METADATA_URLS env.os) ::
      match resolveRelease env.fetch with
      | none => [Event.errorMeta]
      | some release =>
        Event.successLatest release.version :: afterResolve env ipath release

/-! ## Concrete fixtures used by witnesses and counterexamples -/

/-- A metadata document whose stable hash matches its single release. -/
def mjW : MetaJson :=
  ⟨"abc123", [⟨"abc123", "3.38.5", "stable/sdk_3.38.5.tar.xz"⟩]⟩

/-- The release `mjW` resolves to. -/
def relW : Release :=
  ⟨"abc123", "3.38.5", "stable/sdk_3.38.5.tar.xz"⟩

/-- A run on Linux where the probe reports the latest version already. -/
def envLatest : Env :=
  { os := "Linux",
    home := "/home/dev",
    fetch := some mjW,
    probe := ProbeOutcome.output "Flutter 3.38.5 on channel stable",
    downloadOk := true,
    installDirExists := true,
    oldInstall := [⟨true, false⟩],
    parentExists := true,
    extractOk := true,
    archiveRemoveOk := true,
    pathEnv := "" }

/-- A fresh-install run on Linux whose old installation directory holds a
writable but locked path, so its removal fails after a successful
download. -/
def envRemovalFail : Env :=
  { os := "Linux",
    home := "/home/dev",
    fetch := some mjW,
    probe := ProbeOutcome.execNotFound,
    downloadOk := true,
    installDirExists := true,
    oldInstall := [⟨true, true⟩],
    parentExists := true,
    extractOk := true,
    archiveRemoveOk := true,
    pathEnv := "" }

/-! ## Claim theorems -/

/-- C1: when the probed local version is exactly the resolved latest
stable version, the run prints the already-latest message and ends with
no download, no removal, no extraction — no filesystem mutation at
all. -/
theorem c1_already_latest_is_pure (env : Env) (ip : String) (r : Release)
    (hos : PATHS env.home env.os = some ip)
    (hres : resolveRelease env.fetch = some r)
    (hprobe : get_installed_version env.probe = some r.version) :
    install_flutter env =
      [Event.header, Event.detected env.os, Event.stepChecking,
        Event.netFetchMeta (METADATA_URLS env.os),
        Event.successLatest r.version, Event.printLocal r.version,
        Event.alreadyLatest] ∧
      (install_flutter env).filter Event.isFsMutation = [] := by
  have h : install_flutter env =
      [Event.header, Event.detected env.os, Event.stepChecking,
        Event.netFetchMeta (METADATA_URLS env.os),
        Event.successLatest r.version, Event.printLocal r.version,
        Event.alreadyLatest] := by
    unfold install_flutter afterResolve
    rw [hos, hres, hprobe]
    simp
  exact ⟨h, by rw [h]; rfl⟩

/-- Witness for C1 at a concrete run. -/
theorem c1_witness :
    install_flutter envLatest =
      [Event.header, Event.detected "Linux", Event.stepChecking,
        Event.netFetchMeta (METADATA_URLS "Linux"),
        Event.successLatest "3.38.5", Event.printLocal "3.38.5",
        Event.alreadyLatest] ∧
      (install_flutter envLatest).filter Event.isFsMutation = [] :=
  c1_already_latest_is_pure envLatest "/home/dev/development/flutter" relW
    (by rfl) (by rfl) (by rfl)

/-- C8: on a host OS outside the three supported ones, the run reports an
unsupported-OS error and halts at once, with no network request and no
filesystem mutation. -/
theorem c8_unsupported_os_halts (env : Env)
    (h1 : env.os ≠ "Windows") (h2 : env.os ≠ "Darwin") (h3 : env.os ≠ "Linux") :
    install_flutter env = [Event.header, Event.errorUnsupported env.os] ∧
      (install_flutter env).filter Event.isNet = [] ∧
      (install_flutter env).filter Event.isFsMutation = [] := by
  have hos : PATHS env.home env.os = none := by
    simp [PATHS, h1, h2, h3]
  have h : install_flutter env = [Event.header, Event.errorUnsupported env.os] := by
    unfold install_flutter
    rw [hos]
  exact ⟨h, by rw [h]; rfl, by rw [h]; rfl⟩

/-- Witness for C8 at a concrete unsupported OS. -/
theorem c8_witness :
    install_flutter { envLatest with os := "FreeBSD" } =
      [Event.header, Event.errorUnsupported "FreeBSD"] ∧
      (install_flutter { envLatest with os := "FreeBSD" }).filter Event.isNet = [] ∧
      (install_flutter { envLatest with os := "FreeBSD" }).filter Event.isFsMutation = [] :=
  c8_unsupported_os_halts { envLatest with os := "FreeBSD" }
    (by decide) (by decide) (by decide)

/-- C9: the PATH advisor is a total function that always ends with the
doctor reminder; on Windows it keys on a case-insensitive substring test
of the bin directory against the process PATH, printing either the
already-configured message or the persisting command, and on every other
platform it prints the export line unconditionally. -/
theorem c9_path_advisor_shape (osName ipath pathEnv : String) :
    Event.doctorReminder ∈ pathAdvisor osName ipath pathEnv ∧
      (osName = "Windows" →
        pathAdvisor osName ipath pathEnv =
          if containsSub (binPathOf osName ipath).toLower.data pathEnv.toLower.data then
            [Event.stepConfig, Event.pathAlready, Event.doctorReminder]
          else
            [Event.stepConfig, Event.pathWarnWindows (binPathOf osName ipath),
              Event.doctorReminder]) ∧
      (osName ≠ "Windows" →
        pathAdvisor osName ipath pathEnv =
          [Event.stepConfig, Event.pathDone,
            Event.pathExport (binPathOf osName ipath), Event.doctorReminder]) := by
  refine ⟨?_, ?_, ?_⟩
  · unfold pathAdvisor
    by_cases hw : osName = "Windows" <;> simp [hw]
  · intro hw
    subst hw
    unfold pathAdvisor
    by_cases hc : containsSub (binPathOf "Windows" ipath).toLower.data pathEnv.toLower.data <;>
      simp [hc]
  · intro hw
    unfold pathAdvisor
    simp [hw]

/-- Witness for C9 on a concrete non-Windows and a concrete Windows input. -/
theorem c9_witness :
    Event.doctorReminder ∈ pathAdvisor "Darwin" "/home/dev/development/flutter" "" ∧
      pathAdvisor "Darwin" "/home/dev/development/flutter" "" =
        [Event.stepConfig, Event.pathDone,
          Event.pathExport (binPathOf "Darwin" "/home/dev/development/flutter"),
          Event.doctorReminder] ∧
      pathAdvisor "Windows" "C:\\flutter" "x;C:\\FLUTTER\\bin;y" =
        if containsSub (binPathOf "Windows" "C:\\flutter").toLower.data
            "x;C:\\FLUTTER\\bin;y".toLower.data then
          [Event.stepConfig, Event.pathAlready, Event.doctorReminder]
        else
          [Event.stepConfig, Event.pathWarnWindows (binPathOf "Windows" "C:\\flutter"),
            Event.doctorReminder] :=
  ⟨(c9_path_advisor_shape "Darwin" "/home/dev/development/flutter" "").1,
    (c9_path_advisor_shape "Darwin" "/home/dev/development/flutter" "").2.2 (by decide),
    (c9_path_advisor_shape "Windows" "C:\\flutter" "x;C:\\FLUTTER\\bin;y").2.1 rfl⟩

/-- C2: the release resolver returns a release of the metadata document
whose hash equals the declared current stable hash; a failed fetch, or a
document in which no release carries that hash, resolves to nothing, and
then the run stops at an error message with no filesystem mutation. -/
theorem c2_release_resolver_correct :
    (∀ m r, resolveRelease (some m) = some r →
      r ∈ m.releases ∧ r.hash = m.currentStable) ∧
    resolveRelease none = none ∧
    (∀ m, (∀ r ∈ m.releases, r.hash ≠ m.currentStable) →
      resolveRelease (some m) = none) ∧
    (∀ env ip, PATHS env.home env.os = some ip →
      resolveRelease env.fetch = none →
      install_flutter env =
        [Event.header, Event.detected env.os, Event.stepChecking,
          Event.netFetchMeta (METADATA_URLS env.os), Event.errorMeta] ∧
      (install_flutter env).filter Event.isFsMutation = []) := by
  refine ⟨?_, rfl, ?_, ?_⟩
  · intro m r h
    have h' : m.releases.find? (fun item => item.hash == m.currentStable) = some r := h
    have hp := List.find?_some h'
    have hm := List.mem_of_find?_eq_some h'
    exact ⟨hm, by simpa using hp⟩
  · intro m h
    show m.releases.find? (fun item => item.hash == m.currentStable) = none
    rw [List.find?_eq_none]
    intro x hx
    simpa using h x hx
  · intro env ip hos hres
    have h : install_flutter env =
        [Event.header, Event.detected env.os, Event.stepChecking,
          Event.netFetchMeta (METADATA_URLS env.os), Event.errorMeta] := by
      unfold install_flutter
      rw [hos, hres]
    exact ⟨h, by rw [h]; rfl⟩

/-- Witness for C2: the fixture document resolves to its stable release,
and a failed fetch ends the concrete run at the metadata error. -/
theorem c2_witness :
    (relW ∈ mjW.releases ∧ relW.hash = mjW.currentStable) ∧
      install_flutter { envLatest with fetch := none } =
        [Event.header, Event.detected "Linux", Event.stepChecking,
          Event.netFetchMeta (METADATA_URLS "Linux"), Event.errorMeta] ∧
      (install_flutter { envLatest with fetch := none }).filter Event.isFsMutation = [] :=
  ⟨c2_release_resolver_correct.1 mjW relW (by rfl),
    (c2_release_resolver_correct.2.2.2 { envLatest with fetch := none }
      "/home/dev/development/flutter" (by rfl) (by rfl)).1,
    (c2_release_resolver_correct.2.2.2 { envLatest with fetch := none }
      "/home/dev/development/flutter" (by rfl) (by rfl)).2⟩

/-- C5: every failure of the local version probe — executable not found,
non-zero exit, unmatched output, any other exception — yields absent
rather than an error, and an absent local version sends the pipeline into
a fresh install: the fresh-install warning is printed and the download is
attempted. -/
theorem c5_probe_failures_absent :
    get_installed_version ProbeOutcome.execNotFound = none ∧
    get_installed_version ProbeOutcome.nonZeroExit = none ∧
    get_installed_version ProbeOutcome.otherError = none ∧
    (∀ s, searchVersion s.data = none →
      get_installed_version (ProbeOutcome.output s) = none) ∧
    (∀ env ip r, PATHS env.home env.os = some ip →
      resolveRelease env.fetch = some r →
      get_installed_version env.probe = none →
      Event.warnFresh ∈ install_flutter env ∧
      Event.netDownload (downloadUrl r.archive) (filenameFor env.os r.version) ∈
        install_flutter env) := by
  refine ⟨rfl, rfl, rfl, fun s h => h, ?_⟩
  intro env ip r hos hres hprobe
  have h : install_flutter env =
      Event.header :: Event.detected env.os :: Event.stepChecking ::
        Event.netFetchMeta (METADATA_URLS env.os) ::
        Event.successLatest r.version :: Event.warnFresh ::
        downloadPhase env ip r := by
    unfold install_flutter afterResolve
    rw [hos, hres, hprobe]
  rw [h]
  unfold downloadPhase
  exact ⟨by simp, by simp⟩

/-- Witness for C5 at a concrete probe failure and run. -/
theorem c5_witness :
    get_installed_version ProbeOutcome.execNotFound = none ∧
      Event.warnFresh ∈ install_flutter envRemovalFail ∧
      Event.netDownload (downloadUrl relW.archive) (filenameFor "Linux" relW.version) ∈
        install_flutter envRemovalFail :=
  ⟨c5_probe_failures_absent.1,
    (c5_probe_failures_absent.2.2.2.2 envRemovalFail "/home/dev/development/flutter" relW
      (by rfl) (by rfl) (by rfl)).1,
    (c5_probe_failures_absent.2.2.2.2 envRemovalFail "/home/dev/development/flutter" relW
      (by rfl) (by rfl) (by rfl)).2⟩

/-- C6: a failed download ends the run at the download error message,
before any step that touches the installation directory — no removal, no
parent creation, no extraction. -/
theorem c6_download_failure_preserves_install (env : Env) (ip : String) (r : Release)
    (hos : PATHS env.home env.os = some ip)
    (hres : resolveRelease env.fetch = some r)
    (hgate : get_installed_version env.probe ≠ some r.version)
    (hdl : env.downloadOk = false) :
    (install_flutter env).getLast? = some Event.errorDownload ∧
      (install_flutter env).filter Event.touchesInstallDir = [] := by
  cases hp : get_installed_version env.probe with
  | none =>
    have h : install_flutter env =
        [Event.header, Event.detected env.os, Event.stepChecking,
          Event.netFetchMeta (METADATA_URLS env.os),
          Event.successLatest r.version, Event.warnFresh, Event.stepDownload,
          Event.netDownload (downloadUrl r.archive) (filenameFor env.os r.version),
          Event.errorDownload] := by
      unfold install_flutter afterResolve downloadPhase
      rw [hos, hres, hp, hdl]
      simp
    rw [h]
    exact ⟨rfl, rfl⟩
  | some iv =>
    have hne : iv ≠ r.version := by
      intro hEq
      exact hgate (by rw [hp, hEq])
    have h : install_flutter env =
        [Event.header, Event.detected env.os, Event.stepChecking,
          Event.netFetchMeta (METADATA_URLS env.os),
          Event.successLatest r.version, Event.printLocal iv,
          Event.warnUpgrade iv r.version, Event.stepDownload,
          Event.netDownload (downloadUrl r.archive) (filenameFor env.os r.version),
          Event.errorDownload] := by
      unfold install_flutter afterResolve downloadPhase
      rw [hos, hres, hp, hdl]
      simp [hne]
    rw [h]
    exact ⟨rfl, rfl⟩

/-- Witness for C6 at a concrete failed-download run. -/
theorem c6_witness :
    (install_flutter { envRemovalFail with downloadOk := false }).getLast? =
      some Event.errorDownload ∧
      (install_flutter { envRemovalFail with downloadOk := false }).filter
        Event.touchesInstallDir = [] :=
  c6_download_failure_preserves_install { envRemovalFail with downloadOk := false }
    "/home/dev/development/flutter" relW (by rfl) (by rfl) (by decide) rfl

/-- C4: the removal error handler clears the read-only attribute of a
non-writable path and retries once; a deletion error on a writable path is
re-raised, in which case the run stops at the removal error with no
extraction; and a directory whose paths are merely read-only is removed
completely. -/
theorem c4_removal_error_handling :
    (∀ f : FileState, f.writable = false →
      removeOne f = RemoveStep.chmodRetry (!f.locked)) ∧
    (∀ f : FileState, f.writable = true → f.locked = true →
      removeOne f = RemoveStep.reraised) ∧
    (∀ fs : List FileState, (∀ f ∈ fs, f.locked = false) → rmtreeOk fs = true) ∧
    (∀ env ip r, PATHS env.home env.os = some ip →
      resolveRelease env.fetch = some r →
      get_installed_version env.probe = none →
      env.downloadOk = true →
      env.installDirExists = true →
      rmtreeOk env.oldInstall = false →
      (install_flutter env).getLast? = some Event.errorRemove ∧
      (install_flutter env).filter Event.isExtraction = []) := by
  refine ⟨?_, ?_, ?_, ?_⟩
  · intro f h
    simp [removeOne, deleteFails, on_rm_error, h]
  · intro f h1 h2
    simp [removeOne, deleteFails, on_rm_error, h1, h2]
  · intro fs h
    induction fs with
    | nil => rfl
    | cons f rest ih =>
      have hf : f.locked = false := h f (List.mem_cons_self f rest)
      have hrest := ih (fun g hg => h g (List.mem_cons_of_mem f hg))
      cases hw : f.writable <;>
        simp [rmtreeOk, removeOne, deleteFails, on_rm_error, hf, hw, hrest]
  · intro env ip r hos hres hp hdl hdir hrm
    have h : install_flutter env =
        [Event.header, Event.detected env.os, Event.stepChecking,
          Event.netFetchMeta (METADATA_URLS env.os),
          Event.successLatest r.version, Event.warnFresh, Event.stepDownload,
          Event.netDownload (downloadUrl r.archive) (filenameFor env.os r.version),
          Event.downloadFinished, Event.stepExtract ip, Event.warnRemoveOld,
          Event.fsRmtree ip, Event.errorRemove] := by
      unfold install_flutter afterResolve downloadPhase installerPhase
      rw [hos, hres, hp, hdl, hdir, hrm]
      simp
    rw [h]
    exact ⟨rfl, rfl⟩

/-- Witness for C4: the handler outcomes on concrete file states, a
read-only directory that is fully removed, and a concrete aborted run. -/
theorem c4_witness :
    removeOne ⟨false, false⟩ = RemoveStep.chmodRetry true ∧
      removeOne ⟨true, true⟩ = RemoveStep.reraised ∧
      rmtreeOk [⟨true, false⟩, ⟨false, false⟩] = true ∧
      (install_flutter envRemovalFail).getLast? = some Event.errorRemove ∧
      (install_flutter envRemovalFail).filter Event.isExtraction = [] :=
  ⟨c4_removal_error_handling.1 ⟨false, false⟩ rfl,
    c4_removal_error_handling.2.1 ⟨true, true⟩ rfl rfl,
    c4_removal_error_handling.2.2.1 [⟨true, false⟩, ⟨false, false⟩] (by decide),
    (c4_removal_error_handling.2.2.2 envRemovalFail "/home/dev/development/flutter" relW
      (by rfl) (by rfl) (by rfl) rfl rfl rfl).1,
    (c4_removal_error_handling.2.2.2 envRemovalFail "/home/dev/development/flutter" relW
      (by rfl) (by rfl) (by rfl) rfl rfl rfl).2⟩

/-! ## Helper lemmas shared by the archive-cleanup claim -/

/-- A list ending in a list whose last element is known keeps that last
element. -/
theorem getLast_of_append {α : Type} {m : List α} {x : α} (l : List α)
    (h : m.getLast? = some x) : (l ++ m).getLast? = some x := by
  have hne : m ≠ [] := by
    intro hnil
    rw [hnil] at h
    exact Option.noConfusion h
  rw [List.getLast?_append_of_ne_nil l hne, h]

/-- The PATH advisor always ends with the doctor reminder. -/
theorem pathAdvisor_ends_doctor (osName ipath pathEnv : String) :
    (pathAdvisor osName ipath pathEnv).getLast? = some Event.doctorReminder := by
  unfold pathAdvisor
  by_cases hw : osName = "Windows"
  · subst hw
    by_cases hc : containsSub (binPathOf "Windows" ipath).toLower.data pathEnv.toLower.data
    · rw [if_pos rfl, if_pos hc]
      rfl
    · rw [if_pos rfl, if_neg hc]
      rfl
  · rw [if_neg hw]
    rfl

/-- The extraction phase always contains the best-effort archive
deletion, whether extraction succeeds or fails. -/
theorem extractionPhase_delete_mem (env : Env) (ip fn : String) :
    Event.fsDeleteArchive fn env.archiveRemoveOk ∈ extractionPhase env ip fn := by
  unfold extractionPhase
  cases hp : env.parentExists <;> cases he : env.extractOk <;> simp [hp, he]

/-- On a successful extraction the phase runs through the PATH advisor and
ends with the doctor reminder. -/
theorem extractionPhase_ends_doctor (env : Env) (ip fn : String)
    (he : env.extractOk = true) :
    (extractionPhase env ip fn).getLast? = some Event.doctorReminder := by
  have h2 : extractionPhase env ip fn =
      ((if env.parentExists then []
        else [Event.fsMakeParent (parentDir env.home env.os)]) ++
        [Event.fsExtractAll fn (parentDir env.home env.os), Event.successExtract,
          Event.fsDeleteArchive fn env.archiveRemoveOk]) ++
        pathAdvisor env.os ip env.pathEnv := by
    unfold extractionPhase
    cases hp : env.parentExists <;> simp [hp, he]
  rw [h2]
  exact getLast_of_append _ (pathAdvisor_ends_doctor env.os ip env.pathEnv)

/-- When the old directory is absent or removable, the installer phase is
a prefix of bookkeeping events followed by the extraction phase. -/
theorem installerPhase_eq (env : Env) (ip fn : String)
    (hrm : env.installDirExists = true → rmtreeOk env.oldInstall = true) :
    installerPhase env ip fn =
      (if env.installDirExists then
        [Event.stepExtract ip, Event.warnRemoveOld, Event.fsRmtree ip]
      else [Event.stepExtract ip]) ++ extractionPhase env ip fn := by
  unfold installerPhase
  cases hd : env.installDirExists with
  | true => simp [hrm hd]
  | false => simp

/-- C3 as stated is false: in this concrete run the download succeeds, the
old-directory removal then fails, and the run aborts without ever deleting
the downloaded archive. -/
theorem c3_counterexample :
    Event.downloadFinished ∈ install_flutter envRemovalFail ∧
      (install_flutter envRemovalFail).filter Event.isDeleteArchive = [] := by
  have h : install_flutter envRemovalFail =
      [Event.header, Event.detected "Linux", Event.stepChecking,
        Event.netFetchMeta (METADATA_URLS "Linux"),
        Event.successLatest "3.38.5", Event.warnFresh, Event.stepDownload,
        Event.netDownload (downloadUrl "stable/sdk_3.38.5.tar.xz")
          (filenameFor "Linux" "3.38.5"),
        Event.downloadFinished, Event.stepExtract "/home/dev/development/flutter",
        Event.warnRemoveOld, Event.fsRmtree "/home/dev/development/flutter",
        Event.errorRemove] := by
    rfl
  rw [h]
  exact ⟨by simp, rfl⟩

/-- C3 (amended): once the download has succeeded, the archive is deleted
— with deletion errors silently ignored — in every run that reaches the
extraction try-block, whether extraction succeeds or fails; a run that
aborts on old-directory removal failure does not reach it and leaves the
archive behind. -/
theorem c3_archive_cleanup_when_extraction_reached (env : Env) (ip : String) (r : Release)
    (hos : PATHS env.home env.os = some ip)
    (hres : resolveRelease env.fetch = some r)
    (hgate : get_installed_version env.probe ≠ some r.version)
    (hdl : env.downloadOk = true)
    (hrm : env.installDirExists = true → rmtreeOk env.oldInstall = true) :
    Event.fsDeleteArchive (filenameFor env.os r.version) env.archiveRemoveOk ∈
      install_flutter env ∧
    (env.extractOk = true →
      (install_flutter env).getLast? = some Event.doctorReminder) := by
  cases hp : get_installed_version env.probe with
  | none =>
    have h : install_flutter env =
        (Event.header :: Event.detected env.os :: Event.stepChecking ::
          Event.netFetchMeta (METADATA_URLS env.os) ::
          Event.successLatest r.version :: Event.warnFresh :: Event.stepDownload ::
          Event.netDownload (downloadUrl r.archive) (filenameFor env.os r.version) ::
          Event.downloadFinished ::
          (if env.installDirExists then
            [Event.stepExtract ip, Event.warnRemoveOld, Event.fsRmtree ip]
          else [Event.stepExtract ip])) ++
          extractionPhase env ip (filenameFor env.os r.version) := by
      unfold install_flutter afterResolve downloadPhase
      rw [hos, hres, hp]
      simp [hdl, installerPhase_eq env ip (filenameFor env.os r.version) hrm]
    refine ⟨?_, fun he => ?_⟩
    · rw [h]
      exact List.mem_append.mpr (Or.inr (extractionPhase_delete_mem env ip _))
    · rw [h]
      exact getLast_of_append _ (extractionPhase_ends_doctor env ip _ he)
  | some iv =>
    have hne : iv ≠ r.version := by
      intro hEq
      exact hgate (by rw [hp, hEq])
    have h : install_flutter env =
        (Event.header :: Event.detected env.os :: Event.stepChecking ::
          Event.netFetchMeta (METADATA_URLS env.os) ::
          Event.successLatest r.version :: Event.printLocal iv ::
          Event.warnUpgrade iv r.version :: Event.stepDownload ::
          Event.netDownload (downloadUrl r.archive) (filenameFor env.os r.version) ::
          Event.downloadFinished ::
          (if env.installDirExists then
            [Event.stepExtract ip, Event.warnRemoveOld, Event.fsRmtree ip]
          else [Event.stepExtract ip])) ++
          extractionPhase env ip (filenameFor env.os r.version) := by
      unfold install_flutter afterResolve downloadPhase
      rw [hos, hres, hp]
      simp [hne, hdl, installerPhase_eq env ip (filenameFor env.os r.version) hrm]
    refine ⟨?_, fun he => ?_⟩
    · rw [h]
      exact List.mem_append.mpr (Or.inr (extractionPhase_delete_mem env ip _))
    · rw [h]
      exact getLast_of_append _ (extractionPhase_ends_doctor env ip _ he)

/-- A fresh-install run whose extraction fails and whose archive deletion
also fails, over a removable read-only old installation. -/
def envExtractFail : Env :=
  { envRemovalFail with
    oldInstall := [⟨false, false⟩],
    extractOk := false,
    archiveRemoveOk := false }

/-- Witness for the amended C3: the failed extraction still attempts the
archive deletion, and the same run with extraction succeeding runs to the
doctor reminder. -/
theorem c3_witness :
    Event.fsDeleteArchive (filenameFor "Linux" "3.38.5") false ∈
      install_flutter envExtractFail ∧
      (install_flutter { envExtractFail with extractOk := true }).getLast? =
        some Event.doctorReminder :=
  ⟨(c3_archive_cleanup_when_extraction_reached envExtractFail
      "/home/dev/development/flutter" relW (by rfl) (by rfl) (by decide) rfl
      (fun _ => rfl)).1,
    (c3_archive_cleanup_when_extraction_reached { envExtractFail with extractOk := true }
      "/home/dev/development/flutter" relW (by rfl) (by rfl) (by decide) rfl
      (fun _ => rfl)).2 rfl⟩

/-! ## Helper lemmas on progress percentages -/

/-- The drawn percentage grows with the numerator. -/
theorem drawPercent_mono {t : ℕ} (ht : 0 < t) {a b : ℕ} (hab : a ≤ b) :
    drawPercent a t ≤ drawPercent b t := by
  unfold drawPercent
  have ht' : (0 : ℚ) < (t : ℚ) := by exact_mod_cast ht
  have hab' : ((a : ℚ)) ≤ (b : ℚ) := by exact_mod_cast hab
  gcongr

/-- A full bar is exactly 100 percent. -/
theorem drawPercent_self {t : ℕ} (ht : 0 < t) : drawPercent t t = 100 := by
  unfold drawPercent
  have ht' : ((t : ℚ)) ≠ 0 := by
    exact_mod_cast Nat.pos_iff_ne_zero.mp ht
  rw [div_self ht', mul_one]

/-- The clamped download report grows with the block number. -/
theorem downloadReport_mono (bs : ℕ) {ts : ℕ} (ht : 0 < ts) {a b : ℕ} (hab : a ≤ b) :
    downloadReport a bs ts ≤ downloadReport b bs ts := by
  unfold downloadReport
  have h1 : a * bs ≤ b * bs := Nat.mul_le_mul_right bs hab
  split_ifs with hA hB hB
  · exact drawPercent_mono ht h1
  · exact drawPercent_mono ht (Nat.le_of_lt hA)
  · exact absurd (Nat.lt_of_le_of_lt h1 hB) hA
  · exact le_refl _

/-- The download reports over any run are monotonically non-decreasing. -/
theorem downloadReports_pairwise (n bs ts : ℕ) (ht : 0 < ts) :
    List.Pairwise (· ≤ ·) (downloadReports n bs ts) := by
  unfold downloadReports
  exact (List.pairwise_lt_range n).map _
    (fun a b hab => downloadReport_mono bs ht (Nat.le_of_lt hab))

/-- Once the downloaded bytes reach the total, the final report is exactly
100 percent. -/
theorem downloadReports_last (n bs ts : ℕ) (ht : 0 < ts) (hend : ts ≤ n * bs) :
    (downloadReports (n + 1) bs ts).getLast? = some 100 := by
  unfold downloadReports
  rw [List.range_succ, List.map_append, List.map_singleton, List.getLast?_concat]
  show some (downloadReport n bs ts) = some 100
  unfold downloadReport
  rw [if_neg (Nat.not_lt.mpr hend), drawPercent_self ht]

/-- The extraction reports are monotonically non-decreasing. -/
theorem extractReports_pairwise (total : ℕ) :
    List.Pairwise (· ≤ ·) (extractReports total) := by
  rcases Nat.eq_zero_or_pos total with h0 | ht
  · subst h0
    exact List.Pairwise.nil
  · unfold extractReports extractReportIndices
    exact ((List.pairwise_lt_range total).filter _).map _
      (fun a b hab => drawPercent_mono ht (Nat.succ_le_succ (Nat.le_of_lt hab)))

/-- For an archive with at least one entry, the report on the last entry
is exactly 100 percent. -/
theorem extractReports_last {total : ℕ} (ht : 0 < total) :
    (extractReports total).getLast? = some 100 := by
  obtain ⟨k, rfl⟩ : ∃ k, total = k + 1 := ⟨total - 1, (Nat.succ_pred_eq_of_pos ht).symm⟩
  unfold extractReports extractReportIndices
  rw [List.range_succ, List.filter_append]
  rw [show List.filter (fun i => i % 100 == 0 || i == k + 1 - 1) [k] = [k] from by simp]
  rw [List.map_append, List.map_singleton, List.getLast?_concat]
  rw [drawPercent_self ht]

/-- C7 as stated is false for an archive with zero entries: the extraction
loop body never runs, so no progress is reported at all — in particular no
100 percent report on completion. -/
theorem c7_counterexample :
    extractReports 0 = [] ∧ (extractReports 0).getLast? ≠ some 100 :=
  ⟨rfl, by decide⟩

/-- C7 (amended): download reports are monotonically non-decreasing and,
once the downloaded bytes reach a positive declared total, the final
clamped report is exactly 100 percent; extraction reports are
monotonically non-decreasing and, for every archive with at least one
entry, the report on the last entry is exactly 100 percent — while a
zero-entry archive produces no extraction report at all. -/
theorem c7_progress_monotone_and_complete :
    (∀ numCalls blockSize totalSize : ℕ, 0 < totalSize →
      List.Pairwise (· ≤ ·) (downloadReports numCalls blockSize totalSize)) ∧
    (∀ n blockSize totalSize : ℕ, 0 < totalSize → totalSize ≤ n * blockSize →
      (downloadReports (n + 1) blockSize totalSize).getLast? = some 100) ∧
    (∀ total : ℕ, List.Pairwise (· ≤ ·) (extractReports total)) ∧
    (∀ total : ℕ, 0 < total → (extractReports total).getLast? = some 100) :=
  ⟨fun n bs ts ht => downloadReports_pairwise n bs ts ht,
    fun n bs ts ht hend => downloadReports_last n bs ts ht hend,
    extractReports_pairwise,
    fun _ ht => extractReports_last ht⟩

/-- Witness for the amended C7 on concrete download and extraction runs. -/
theorem c7_witness :
    List.Pairwise (· ≤ ·) (downloadReports 4 2 5) ∧
      (downloadReports 4 2 5).getLast? = some 100 ∧
      List.Pairwise (· ≤ ·) (extractReports 205) ∧
      (extractReports 205).getLast? = some 100 :=
  ⟨c7_progress_monotone_and_complete.1 4 2 5 (by decide),
    c7_progress_monotone_and_complete.2.1 3 2 5 (by decide) (by decide),
    c7_progress_monotone_and_complete.2.2.1 205,
    c7_progress_monotone_and_complete.2.2.2 205 (by decide)⟩

end SetupFlutter
